import Mathlib

/-! Shallow embedding of the `export` command of the sector-recovery tool
(`export/export.go`).

The external chain-state service (lotus full-node API), the CLI argument
values, address parsing, CBOR serialization of the miner address and the
final file write are modelled as an oracle bundle `Env`; the command's
`Action` closure is the function `ExportAction`.

Two places in the Go source dereference a pointer that may be nil:
`preCommitInfo.Info.SealProof` after `StateSectorPreCommitInfo` returned a
nil record with a nil error, and `ts.Key()` after `ChainGetTipSetByHeight`
returned an error (its error result is never checked).  A nil-pointer
dereference panics and aborts the whole run, so both are modelled as
explicit `RunError.panic…` outcomes that propagate to the top. -/

abbrev Address := Nat

abbrev TipSetKey := List Nat

abbrev Randomness := List Nat

/-- `types.EmptyTSK`, the chain-head sentinel tipset key. -/
def emptyTSK : TipSetKey := []

/-- A concrete stand-in for the `--miner` CLI string (its content is never
inspected by the model's concrete oracles). -/
def minerArg : String := String.join []

/-- The fields of lotus `miner.SectorOnChainInfo` read by the source. -/
structure OnChainSectorInfo where
  SealProof : Int
  Activation : Int
  SealedCID : Nat
deriving DecidableEq

/-- The fields of lotus `miner.SectorPreCommitInfo` read by the source. -/
structure PreCommitSectorInfo where
  SealProof : Int
  SealedCID : Nat
deriving DecidableEq

/-- The fields of lotus `miner.SectorPreCommitOnChainInfo` read by the source. -/
structure PreCommitOnChainInfo where
  Info : PreCommitSectorInfo
  PreCommitEpoch : Int
deriving DecidableEq

/-- `export.SectorInfo`.  `Ticket` is `abi.Randomness` (a byte slice) whose
zero value is nil; `none` models the absent ticket. -/
structure SectorInfo where
  SectorNumber : Nat
  Activation : Int
  Ticket : Option Randomness
  SealProof : Int
  SealedCID : Nat
deriving DecidableEq

/-- `export.RecoveryParams`, the serialized output record. -/
structure RecoveryParams where
  Miner : Address
  SectorSize : Nat
  SectorInfos : List SectorInfo
deriving DecidableEq

/-- Every way the modelled `Action` can fail to reach a successful exit:
the fatal early returns, the two nil-dereference panics, and a failed
output-file write. -/
inductive RunError where
  | invalidIdentity
  | apiConnectFailed
  | minerInfoFailed
  | panicNilPreCommit
  | panicNilTipset
  | writeFileFailed
deriving DecidableEq

/-- The external environment: address parsing, the lotus full-node API
(each query a pure function of its arguments, as one fixed set of external
responses), CBOR serialization of the address, and the file-write outcome. -/
structure Env where
  newFromString : String → Option Address
  getFullNodeAPI : Bool
  stateMinerInfo : Address → Option Nat
  stateSectorGetInfo : Address → Nat → Except Unit (Option OnChainSectorInfo)
  stateSectorPreCommitInfo : Address → Nat → Except Unit (Option PreCommitOnChainInfo)
  chainGetTipSetByHeight : Int → TipSetKey → Except Unit TipSetKey
  stateGetRandomnessFromTickets : Int → List Nat → TipSetKey → Except Unit Randomness
  marshalCBOR : Address → List Nat
  writeFileOk : Bool

/-- The classification loop (`for _, sector := range cctx.IntSlice("sector")`):
committed metadata wins; a nil committed record falls back to the pre-commit
query; a query error appends the sector to `failtSectors` and continues; a
nil pre-commit record with nil error is dereferenced in the Go source
(`preCommitInfo.Info.SealProof`), modelled as the panic outcome. -/
def classifySectors (env : Env) (a : Address) : List Nat → Except RunError (List SectorInfo × List Nat)
  | [] => .ok ([], [])
  | s :: rest =>
    match env.stateSectorGetInfo a s with
    | .error _ =>
      match classifySectors env a rest with
      | .error e => .error e
      | .ok (infos, fails) => .ok (infos, s :: fails)
    | .ok none =>
      match env.stateSectorPreCommitInfo a s with
      | .error _ =>
        match classifySectors env a rest with
        | .error e => .error e
        | .ok (infos, fails) => .ok (infos, s :: fails)
      | .ok none => .error .panicNilPreCommit
      | .ok (some pci) =>
        match classifySectors env a rest with
        | .error e => .error e
        | .ok (infos, fails) =>
          .ok ({ SectorNumber := s, Activation := pci.PreCommitEpoch, Ticket := none,
                 SealProof := pci.Info.SealProof, SealedCID := pci.Info.SealedCID } :: infos, fails)
    | .ok (some si) =>
      match classifySectors env a rest with
      | .error e => .error e
      | .ok (infos, fails) =>
        .ok ({ SectorNumber := s, Activation := si.Activation, Ticket := none,
               SealProof := si.SealProof, SealedCID := si.SealedCID } :: infos, fails)

/-- `SectorInfos.Less` from the source: activation epoch descending, sector
number ascending as tie-break. -/
def sectorLess (a b : SectorInfo) : Bool :=
  if a.Activation ≠ b.Activation then decide (a.Activation > b.Activation)
  else decide (a.SectorNumber < b.SectorNumber)

/-- The postcondition order of Go's `sort.Sort` with `SectorInfos.Less`:
`a` may come no later than `b` iff `Less b a` is false. -/
def sectorLE (a b : SectorInfo) : Prop := sectorLess b a = false

instance : DecidableRel sectorLE := fun a b =>
  inferInstanceAs (Decidable (sectorLess b a = false))

/-- `sort.Sort(sectorInfos)`: a permutation of the input sorted so that for
`i < j` the comparator `Less(j, i)` is false; modelled by insertion sort
over `sectorLE`. -/
def sortSectors (l : List SectorInfo) : List SectorInfo :=
  List.insertionSort sectorLE l

/-- The randomness loop: the tipset at the sector's activation epoch is
retrieved starting from the carried key `tsk`; the carried key is replaced
by the retrieved tipset's key before the randomness query; an error from
`ChainGetTipSetByHeight` is never checked in the source, so `ts.Key()`
panics on the nil tipset; a randomness error appends the sector to
`failtSectors` and continues with the updated key. -/
def resolveRandomness (env : Env) (mb : List Nat) : TipSetKey → List SectorInfo → Except RunError (List SectorInfo × List Nat)
  | _, [] => .ok ([], [])
  | tsk, si :: rest =>
    match env.chainGetTipSetByHeight si.Activation tsk with
    | .error _ => .error .panicNilTipset
    | .ok key =>
      match env.stateGetRandomnessFromTickets si.Activation mb key with
      | .error _ =>
        match resolveRandomness env mb key rest with
        | .error e => .error e
        | .ok (l, fails) => .ok (si :: l, si.SectorNumber :: fails)
      | .ok r =>
        match resolveRandomness env mb key rest with
        | .error e => .error e
        | .ok (l, fails) => .ok ({ si with Ticket := some r } :: l, fails)

/-- `ExportCmd.Action`: identity resolution, API connection and the miner-info
(sector size) query are fatal; classification and the randomness walk follow;
the assembled `RecoveryParams` is serialized and written (`.ok` carries the
record together with the final `failtSectors` list). -/
def ExportAction (env : Env) (m : String) (ss : List Nat) : Except RunError (RecoveryParams × List Nat) :=
  match env.newFromString m with
  | none => .error .invalidIdentity
  | some a =>
    match env.getFullNodeAPI with
    | false => .error .apiConnectFailed
    | true =>
      match env.stateMinerInfo a with
      | none => .error .minerInfoFailed
      | some sz =>
        match classifySectors env a ss with
        | .error e => .error e
        | .ok (infos, failsC) =>
          match resolveRandomness env (env.marshalCBOR a) emptyTSK (sortSectors infos) with
          | .error e => .error e
          | .ok (withTickets, failsR) =>
            match env.writeFileOk with
            | false => .error .writeFileFailed
            | true => .ok ({ Miner := a, SectorSize := sz, SectorInfos := withTickets }, failsC ++ failsR)

/-- A sector classifies successfully iff the committed query returns a
record, or returns nil without error and the pre-commit query returns a
record. -/
def classifiesOk (env : Env) (a : Address) (s : Nat) : Bool :=
  match env.stateSectorGetInfo a s with
  | .ok (some _) => true
  | .ok none =>
    match env.stateSectorPreCommitInfo a s with
    | .ok (some _) => true
    | .ok none => false
    | .error _ => false
  | .error _ => false

/-- The sort key of a `SectorInfo`: the pair the comparator inspects. -/
def keyOf (si : SectorInfo) : Int × Nat := (si.Activation, si.SectorNumber)

/-- The strict adjacent-pair order claimed for the sorted output list:
activation strictly descending, or equal activation and sector number
strictly ascending. -/
def strictOrd (a b : SectorInfo) : Prop :=
  a.Activation > b.Activation ∨ (a.Activation = b.Activation ∧ a.SectorNumber < b.SectorNumber)

instance : DecidableRel strictOrd := fun a b =>
  inferInstanceAs (Decidable (a.Activation > b.Activation ∨ (a.Activation = b.Activation ∧ a.SectorNumber < b.SectorNumber)))

/-- Adjacent-pair strict sortedness of a sector list. -/
def strictSorted (l : List SectorInfo) : Prop := List.Chain' strictOrd l

theorem sectorLE_iff (a b : SectorInfo) :
    sectorLE a b ↔ (a.Activation > b.Activation ∨ (a.Activation = b.Activation ∧ a.SectorNumber ≤ b.SectorNumber)) := by
  unfold sectorLE sectorLess
  by_cases h : b.Activation = a.Activation <;> simp [h] <;> omega

instance : IsTotal SectorInfo sectorLE := by
  constructor
  intro a b
  simp only [sectorLE_iff]
  omega

instance : IsTrans SectorInfo sectorLE := by
  constructor
  intro a b c hab hbc
  simp only [sectorLE_iff] at hab hbc ⊢
  omega

theorem sortSectors_perm (l : List SectorInfo) : List.Perm (sortSectors l) l :=
  List.perm_insertionSort _ l

theorem sortSectors_sorted (l : List SectorInfo) : List.Sorted sectorLE (sortSectors l) :=
  List.sorted_insertionSort _ l

theorem classifySectors_ok_map (env : Env) (a : Address) :
    ∀ (ss : List Nat) (infos : List SectorInfo) (fails : List Nat),
      classifySectors env a ss = Except.ok (infos, fails) →
      infos.map (fun si => si.SectorNumber) = ss.filter (fun s => classifiesOk env a s)
  | [], infos, fails, h => by
    simp only [classifySectors, Except.ok.injEq, Prod.mk.injEq] at h
    obtain ⟨h1, h2⟩ := h
    subst h1
    simp
  | s :: rest, infos, fails, h => by
    have ih := classifySectors_ok_map env a rest
    cases hg : env.stateSectorGetInfo a s with
    | error e =>
      cases hr : classifySectors env a rest with
      | error e2 => simp [classifySectors, hg, hr] at h
      | ok p =>
        obtain ⟨i, f⟩ := p
        simp only [classifySectors, hg, hr, Except.ok.injEq, Prod.mk.injEq] at h
        obtain ⟨h1, h2⟩ := h
        subst h1
        have hc : classifiesOk env a s = false := by simp [classifiesOk, hg]
        simp [List.filter_cons, hc, ih i f hr]
    | ok o =>
      cases o with
      | none =>
        cases hp : env.stateSectorPreCommitInfo a s with
        | error e2 =>
          cases hr : classifySectors env a rest with
          | error e3 => simp [classifySectors, hg, hp, hr] at h
          | ok p =>
            obtain ⟨i, f⟩ := p
            simp only [classifySectors, hg, hp, hr, Except.ok.injEq, Prod.mk.injEq] at h
            obtain ⟨h1, h2⟩ := h
            subst h1
            have hc : classifiesOk env a s = false := by simp [classifiesOk, hg, hp]
            simp [List.filter_cons, hc, ih i f hr]
        | ok po =>
          cases po with
          | none => simp [classifySectors, hg, hp] at h
          | some pci =>
            cases hr : classifySectors env a rest with
            | error e3 => simp [classifySectors, hg, hp, hr] at h
            | ok p =>
              obtain ⟨i, f⟩ := p
              simp only [classifySectors, hg, hp, hr, Except.ok.injEq, Prod.mk.injEq] at h
              obtain ⟨h1, h2⟩ := h
              subst h1
              have hc : classifiesOk env a s = true := by simp [classifiesOk, hg, hp]
              simp [List.filter_cons, hc, ih i f hr]
      | some si =>
        cases hr : classifySectors env a rest with
        | error e3 => simp [classifySectors, hg, hr] at h
        | ok p =>
          obtain ⟨i, f⟩ := p
          simp only [classifySectors, hg, hr, Except.ok.injEq, Prod.mk.injEq] at h
          obtain ⟨h1, h2⟩ := h
          subst h1
          have hc : classifiesOk env a s = true := by simp [classifiesOk, hg]
          simp [List.filter_cons, hc, ih i f hr]

theorem resolveRandomness_ok_map (env : Env) (mb : List Nat) :
    ∀ (l : List SectorInfo) (tsk : TipSetKey) (l2 : List SectorInfo) (fails : List Nat),
      resolveRandomness env mb tsk l = Except.ok (l2, fails) →
      l2.map keyOf = l.map keyOf
  | [], tsk, l2, fails, h => by
    simp only [resolveRandomness, Except.ok.injEq, Prod.mk.injEq] at h
    obtain ⟨h1, h2⟩ := h
    subst h1
    simp
  | si :: rest, tsk, l2, fails, h => by
    have ih := resolveRandomness_ok_map env mb rest
    cases ht : env.chainGetTipSetByHeight si.Activation tsk with
    | error e => simp [resolveRandomness, ht] at h
    | ok key =>
      cases hr : env.stateGetRandomnessFromTickets si.Activation mb key with
      | error e =>
        cases hrec : resolveRandomness env mb key rest with
        | error e2 => simp [resolveRandomness, ht, hr, hrec] at h
        | ok p =>
          obtain ⟨l3, f3⟩ := p
          simp only [resolveRandomness, ht, hr, hrec, Except.ok.injEq, Prod.mk.injEq] at h
          obtain ⟨h1, h2⟩ := h
          subst h1
          simp [ih key l3 f3 hrec]
      | ok r =>
        cases hrec : resolveRandomness env mb key rest with
        | error e2 => simp [resolveRandomness, ht, hr, hrec] at h
        | ok p =>
          obtain ⟨l3, f3⟩ := p
          simp only [resolveRandomness, ht, hr, hrec, Except.ok.injEq, Prod.mk.injEq] at h
          obtain ⟨h1, h2⟩ := h
          subst h1
          simp [keyOf, ih key l3 f3 hrec]

theorem map_sectorNumber_of_map_keyOf {l1 l2 : List SectorInfo}
    (h : l1.map keyOf = l2.map keyOf) :
    l1.map (fun si => si.SectorNumber) = l2.map (fun si => si.SectorNumber) := by
  have h2 := congrArg (List.map Prod.snd) h
  simpa [List.map_map, keyOf, Function.comp] using h2

theorem exportAction_ok_elim (env : Env) (m : String) (ss : List Nat)
    (out : RecoveryParams) (fails : List Nat)
    (h : ExportAction env m ss = Except.ok (out, fails)) :
    ∃ a sz infos fc l fr,
      env.newFromString m = some a ∧ env.getFullNodeAPI = true ∧
      env.stateMinerInfo a = some sz ∧
      classifySectors env a ss = Except.ok (infos, fc) ∧
      resolveRandomness env (env.marshalCBOR a) emptyTSK (sortSectors infos) = Except.ok (l, fr) ∧
      env.writeFileOk = true ∧
      out = { Miner := a, SectorSize := sz, SectorInfos := l } ∧ fails = fc ++ fr := by
  cases hp : env.newFromString m with
  | none => simp [ExportAction, hp] at h
  | some a =>
    cases hc : env.getFullNodeAPI with
    | false => simp [ExportAction, hp, hc] at h
    | true =>
      cases hm : env.stateMinerInfo a with
      | none => simp [ExportAction, hp, hc, hm] at h
      | some sz =>
        cases hcl : classifySectors env a ss with
        | error e => simp [ExportAction, hp, hc, hm, hcl] at h
        | ok p =>
          obtain ⟨infos, fc⟩ := p
          cases hre : resolveRandomness env (env.marshalCBOR a) emptyTSK (sortSectors infos) with
          | error e => simp [ExportAction, hp, hc, hm, hcl, hre] at h
          | ok q =>
            obtain ⟨l, fr⟩ := q
            cases hw : env.writeFileOk with
            | false => simp [ExportAction, hp, hc, hm, hcl, hre, hw] at h
            | true =>
              simp only [ExportAction, hp, hc, hm, hcl, hre, hw, Except.ok.injEq,
                Prod.mk.injEq] at h
              obtain ⟨h1, h2⟩ := h
              exact ⟨a, sz, infos, fc, l, fr, rfl, rfl, hm, hcl, hre, rfl, h1.symm, h2.symm⟩

/-- An environment where every external query succeeds and every sector is
fully committed (activation 100, proof type 8, sealed CID 55). -/
def envAllOk : Env where
  newFromString := fun _ => some 0
  getFullNodeAPI := true
  stateMinerInfo := fun _ => some 32
  stateSectorGetInfo := fun _ _ => Except.ok (some { SealProof := 8, Activation := 100, SealedCID := 55 })
  stateSectorPreCommitInfo := fun _ _ => Except.error ()
  chainGetTipSetByHeight := fun _ _ => Except.ok [1]
  stateGetRandomnessFromTickets := fun _ _ _ => Except.ok [9]
  marshalCBOR := fun _ => [0]
  writeFileOk := true

/-- The `SectorInfo` that `envAllOk` classification produces for sector 5. -/
def siPlain : SectorInfo :=
  { SectorNumber := 5, Activation := 100, Ticket := none, SealProof := 8, SealedCID := 55 }

/-- `siPlain` after the randomness loop of `envAllOk` attached its ticket. -/
def siDup : SectorInfo :=
  { SectorNumber := 5, Activation := 100, Ticket := some [9], SealProof := 8, SealedCID := 55 }

/-- An environment identical to `envAllOk` except that every tipset lookup
(`ChainGetTipSetByHeight`) returns an error. -/
def envTipErr : Env where
  newFromString := fun _ => some 0
  getFullNodeAPI := true
  stateMinerInfo := fun _ => some 32
  stateSectorGetInfo := fun _ _ => Except.ok (some { SealProof := 8, Activation := 100, SealedCID := 55 })
  stateSectorPreCommitInfo := fun _ _ => Except.error ()
  chainGetTipSetByHeight := fun _ _ => Except.error ()
  stateGetRandomnessFromTickets := fun _ _ _ => Except.ok [9]
  marshalCBOR := fun _ => [0]
  writeFileOk := true

/-- Like `envTipErr` but with a different miner record and sector metadata,
demonstrating the missing write on a tipset-lookup fault. -/
def envTipErr2 : Env where
  newFromString := fun _ => some 0
  getFullNodeAPI := true
  stateMinerInfo := fun _ => some 64
  stateSectorGetInfo := fun _ _ => Except.ok (some { SealProof := 9, Activation := 250, SealedCID := 88 })
  stateSectorPreCommitInfo := fun _ _ => Except.error ()
  chainGetTipSetByHeight := fun _ _ => Except.error ()
  stateGetRandomnessFromTickets := fun _ _ _ => Except.ok [4]
  marshalCBOR := fun _ => [0]
  writeFileOk := true

/-- An environment where no sector has committed metadata but every sector
has a pre-commit record (pre-commit epoch 150, proof type 3, sealed CID 66). -/
def envPre : Env where
  newFromString := fun _ => some 0
  getFullNodeAPI := true
  stateMinerInfo := fun _ => some 32
  stateSectorGetInfo := fun _ _ => Except.ok none
  stateSectorPreCommitInfo := fun _ _ => Except.ok (some { Info := { SealProof := 3, SealedCID := 66 }, PreCommitEpoch := 150 })
  chainGetTipSetByHeight := fun _ _ => Except.ok [2]
  stateGetRandomnessFromTickets := fun _ _ _ => Except.ok [7]
  marshalCBOR := fun _ => [0]
  writeFileOk := true

/-- An environment where the committed query returns nil without error and
the pre-commit query also returns nil without error. -/
def envPreNil : Env where
  newFromString := fun _ => some 0
  getFullNodeAPI := true
  stateMinerInfo := fun _ => some 32
  stateSectorGetInfo := fun _ _ => Except.ok none
  stateSectorPreCommitInfo := fun _ _ => Except.ok none
  chainGetTipSetByHeight := fun _ _ => Except.ok [2]
  stateGetRandomnessFromTickets := fun _ _ _ => Except.ok [7]
  marshalCBOR := fun _ => [0]
  writeFileOk := true

/-- An environment where tipset lookups succeed but every randomness
derivation fails. -/
def envRandFail : Env where
  newFromString := fun _ => some 0
  getFullNodeAPI := true
  stateMinerInfo := fun _ => some 32
  stateSectorGetInfo := fun _ _ => Except.ok (some { SealProof := 8, Activation := 100, SealedCID := 55 })
  stateSectorPreCommitInfo := fun _ _ => Except.error ()
  chainGetTipSetByHeight := fun _ _ => Except.ok [3]
  stateGetRandomnessFromTickets := fun _ _ _ => Except.error ()
  marshalCBOR := fun _ => [0]
  writeFileOk := true

/-- An environment where identity resolution and the size query succeed,
every sector fails classification, and the final file write fails. -/
def envWriteFail : Env where
  newFromString := fun _ => some 0
  getFullNodeAPI := true
  stateMinerInfo := fun _ => some 32
  stateSectorGetInfo := fun _ _ => Except.error ()
  stateSectorPreCommitInfo := fun _ _ => Except.error ()
  chainGetTipSetByHeight := fun _ _ => Except.ok [1]
  stateGetRandomnessFromTickets := fun _ _ _ => Except.ok [9]
  marshalCBOR := fun _ => [0]
  writeFileOk := false

/-- C1: the claim says a failed tipset lookup adds the sector to the failure
set, logs, and continues, the loop never aborting or faulting.  In the source
the error result of `ChainGetTipSetByHeight` is never checked and `ts.Key()`
dereferences the nil tipset, so the run faults: at an environment whose
tipset lookup errors, the whole action ends in the nil-tipset panic instead
of a failure-set entry. -/
theorem C1_tipset_lookup_error_panics :
    ExportAction envTipErr minerArg [7] = Except.error RunError.panicNilTipset := rfl

/-- C4: a sector whose committed-sector query returns nil without error and
whose pre-commit query returns a record yields a `SectorInfo` whose
`Activation` is the record's `PreCommitEpoch` and whose `SealProof` and
`SealedCID` come from the record's `Info` fields. -/
theorem C4_precommit_fallback_fields (env : Env) (a : Address) (s : Nat) (rest : List Nat)
    (pci : PreCommitOnChainInfo) (infos : List SectorInfo) (fails : List Nat)
    (h1 : env.stateSectorGetInfo a s = Except.ok none)
    (h2 : env.stateSectorPreCommitInfo a s = Except.ok (some pci))
    (h3 : classifySectors env a rest = Except.ok (infos, fails)) :
    classifySectors env a (s :: rest) =
      Except.ok ({ SectorNumber := s, Activation := pci.PreCommitEpoch, Ticket := none,
                   SealProof := pci.Info.SealProof, SealedCID := pci.Info.SealedCID } :: infos, fails) := by
  simp [classifySectors, h1, h2, h3]

theorem C4_witness :
    classifySectors envPre 0 [4] =
      Except.ok ([{ SectorNumber := 4, Activation := 150, Ticket := none,
                    SealProof := 3, SealedCID := 66 }], []) :=
  C4_precommit_fallback_fields envPre 0 4 []
    { Info := { SealProof := 3, SealedCID := 66 }, PreCommitEpoch := 150 } [] [] rfl rfl rfl

/-- C5: when the tipset lookup for the head sector succeeds with `key`, the
carried walk state is `key` for the rest of the loop in both branches of the
randomness derivation, i.e. the state advances before the derivation is
attempted and regardless of its outcome. -/
theorem C5_tipset_state_advances (env : Env) (mb : List Nat) (tsk key : TipSetKey)
    (si : SectorInfo) (rest : List SectorInfo)
    (hts : env.chainGetTipSetByHeight si.Activation tsk = Except.ok key) :
    resolveRandomness env mb tsk (si :: rest) =
      match env.stateGetRandomnessFromTickets si.Activation mb key with
      | .error _ =>
        match resolveRandomness env mb key rest with
        | .error e => .error e
        | .ok (l, fails) => .ok (si :: l, si.SectorNumber :: fails)
      | .ok r =>
        match resolveRandomness env mb key rest with
        | .error e => .error e
        | .ok (l, fails) => .ok ({ si with Ticket := some r } :: l, fails) := by
  simp [resolveRandomness, hts]

theorem C5_witness :
    resolveRandomness envAllOk [0] emptyTSK [siPlain] = Except.ok ([siDup], []) :=
  C5_tipset_state_advances envAllOk [0] emptyTSK [1] siPlain [] rfl

/-- C6: when the randomness derivation for the head sector fails, the head
is kept with its `Ticket` unchanged (absent), its number is appended to the
failure set, and the remaining sectors are processed exactly as the
independent walk over them from the advanced key, so no other sector's
ticket is affected. -/
theorem C6_randomness_failure_frame (env : Env) (mb : List Nat) (tsk key : TipSetKey)
    (si : SectorInfo) (rest : List SectorInfo) (e : Unit)
    (hts : env.chainGetTipSetByHeight si.Activation tsk = Except.ok key)
    (hfail : env.stateGetRandomnessFromTickets si.Activation mb key = Except.error e) :
    resolveRandomness env mb tsk (si :: rest) =
      match resolveRandomness env mb key rest with
      | .error e2 => .error e2
      | .ok (l, fails) => .ok (si :: l, si.SectorNumber :: fails) := by
  simp [resolveRandomness, hts, hfail]

theorem C6_witness :
    resolveRandomness envRandFail [0] emptyTSK [siPlain] = Except.ok ([siPlain], [5]) :=
  C6_randomness_failure_frame envRandFail [0] emptyTSK [3] siPlain [] () rfl rfl

/-- C7: the claim says the output record is assembled and written whenever
identity resolution and the size query succeed, regardless of per-sector
outcomes.  At an environment where both succeed and a classified sector's
tipset lookup errors, the run instead ends in the nil-tipset panic, so no
record is written. -/
theorem C7_no_output_on_tipset_fault :
    (envTipErr2.newFromString minerArg).isSome = true ∧
    (envTipErr2.stateMinerInfo 0).isSome = true ∧
    ExportAction envTipErr2 minerArg [9] = Except.error RunError.panicNilTipset :=
  ⟨rfl, rfl, rfl⟩

/-- C10: in the pre-committed branch there is no presence check: with the
committed query returning nil without error, a pre-commit query returning
nil without error is dereferenced — the run faults with the nil-pre-commit
panic rather than recording a failure — and a pre-commit query returning a
record leads unconditionally to building the `SectorInfo` from the record's
fields. -/
theorem C10_precommit_nil_dereference (env : Env) (a : Address) (s : Nat) (rest : List Nat)
    (h1 : env.stateSectorGetInfo a s = Except.ok none) :
    (env.stateSectorPreCommitInfo a s = Except.ok none →
      classifySectors env a (s :: rest) = Except.error RunError.panicNilPreCommit) ∧
    (∀ pci infos fails, env.stateSectorPreCommitInfo a s = Except.ok (some pci) →
      classifySectors env a rest = Except.ok (infos, fails) →
      classifySectors env a (s :: rest) =
        Except.ok ({ SectorNumber := s, Activation := pci.PreCommitEpoch, Ticket := none,
                     SealProof := pci.Info.SealProof, SealedCID := pci.Info.SealedCID } :: infos, fails)) := by
  constructor
  · intro h2
    simp [classifySectors, h1, h2]
  · intro pci infos fails h2 h3
    simp [classifySectors, h1, h2, h3]

theorem C10_witness :
    classifySectors envPreNil 0 [2] = Except.error RunError.panicNilPreCommit :=
  (C10_precommit_nil_dereference envPreNil 0 2 [] rfl).1 rfl

/-- C2: the claim says sector numbers are unique in the output even when the
input list repeats a sector.  The source iterates over the raw `--sector`
slice with no deduplication: requesting sector 5 twice yields two entries
numbered 5. -/
theorem C2_duplicate_input_counterexample :
    ExportAction envAllOk minerArg [5, 5] =
      Except.ok ({ Miner := 0, SectorSize := 32, SectorInfos := [siDup, siDup] }, []) ∧
    ¬ List.Nodup ([siDup, siDup].map (fun si => si.SectorNumber)) := by
  constructor
  · rfl
  · decide

/-- C2 (amended): for every input list of pairwise-distinct sector numbers,
the successful run's sector list carries exactly the requested sectors that
classified successfully (committed or pre-committed path), each exactly
once. -/
theorem C2_unique_sectors_of_nodup (env : Env) (m : String) (ss : List Nat)
    (a : Address) (out : RecoveryParams) (fails : List Nat)
    (hnd : ss.Nodup)
    (ha : env.newFromString m = some a)
    (h : ExportAction env m ss = Except.ok (out, fails)) :
    List.Nodup (out.SectorInfos.map (fun si => si.SectorNumber)) ∧
    ∀ n, n ∈ out.SectorInfos.map (fun si => si.SectorNumber) ↔
      (n ∈ ss ∧ classifiesOk env a n = true) := by
  obtain ⟨a2, sz, infos, fc, l, fr, ha2, hapi, hm, hcl, hre, hw, hout, hfails⟩ :=
    exportAction_ok_elim env m ss out fails h
  rw [ha] at ha2
  injection ha2 with haa
  subst haa
  subst hout
  have hmapK := resolveRandomness_ok_map env (env.marshalCBOR a) (sortSectors infos) emptyTSK l fr hre
  have hmapSN := map_sectorNumber_of_map_keyOf hmapK
  have hperm : List.Perm ((sortSectors infos).map (fun si => si.SectorNumber))
      (infos.map (fun si => si.SectorNumber)) := (sortSectors_perm infos).map _
  have hclm := classifySectors_ok_map env a ss infos fc hcl
  constructor
  · rw [hmapSN]
    refine hperm.nodup_iff.mpr ?_
    rw [hclm]
    exact hnd.filter _
  · intro n
    rw [hmapSN]
    rw [hperm.mem_iff]
    rw [hclm]
    simp [List.mem_filter]

theorem C2_witness :
    List.Nodup ([siDup].map (fun si => si.SectorNumber)) ∧
    ∀ n, n ∈ [siDup].map (fun si => si.SectorNumber) ↔
      (n ∈ [5] ∧ classifiesOk envAllOk 0 n = true) :=
  C2_unique_sectors_of_nodup envAllOk minerArg [5] 0
    { Miner := 0, SectorSize := 32, SectorInfos := [siDup] } [] (by decide) rfl rfl

/-- The strict adjacent-pair order on sort keys (activation, sector number). -/
def strictOrdK (p q : Int × Nat) : Prop :=
  p.1 > q.1 ∨ (p.1 = q.1 ∧ p.2 < q.2)

/-- C3: the claim says adjacent pairs of the output list are in strict order
(activation descending, sector number strictly ascending on ties).  With the
duplicated input `[5, 5]` the output holds two identical entries, whose
adjacent pair satisfies neither disjunct. -/
theorem C3_duplicate_counterexample :
    ExportAction envAllOk minerArg [5, 5] =
      Except.ok ({ Miner := 0, SectorSize := 32, SectorInfos := [siDup, siDup] }, []) ∧
    ¬ strictSorted [siDup, siDup] := by
  constructor
  · rfl
  · intro hcon
    obtain ⟨hord, _⟩ := List.chain'_cons.mp hcon
    simp [strictOrd, siDup] at hord

/-- C3 (amended): adjacent pairs of every successful run's output list
satisfy activation descending with sector number ascending non-strictly;
the strict order of the claim holds whenever the input sector numbers are
pairwise distinct. -/
theorem C3_sorted_strict_of_nodup (env : Env) (m : String) (ss : List Nat)
    (out : RecoveryParams) (fails : List Nat)
    (hnd : ss.Nodup)
    (h : ExportAction env m ss = Except.ok (out, fails)) :
    strictSorted out.SectorInfos := by
  obtain ⟨a, sz, infos, fc, l, fr, ha, hapi, hm, hcl, hre, hw, hout, hfails⟩ :=
    exportAction_ok_elim env m ss out fails h
  subst hout
  have hmapK := resolveRandomness_ok_map env (env.marshalCBOR a) (sortSectors infos) emptyTSK l fr hre
  have hsorted : List.Pairwise sectorLE (sortSectors infos) := sortSectors_sorted infos
  have hclm := classifySectors_ok_map env a ss infos fc hcl
  have hndInfos : List.Nodup (infos.map (fun si => si.SectorNumber)) := by
    rw [hclm]
    exact hnd.filter _
  have hndSorted : List.Nodup ((sortSectors infos).map (fun si => si.SectorNumber)) :=
    ((sortSectors_perm infos).map _).nodup_iff.mpr hndInfos
  have hpwNe : List.Pairwise (fun x y : SectorInfo => x.SectorNumber ≠ y.SectorNumber)
      (sortSectors infos) := List.pairwise_map.mp hndSorted
  have hpwStrict : List.Pairwise strictOrd (sortSectors infos) := by
    refine (hsorted.and hpwNe).imp ?_
    intro x y hxy
    obtain ⟨hle, hne⟩ := hxy
    rw [sectorLE_iff] at hle
    unfold strictOrd
    omega
  have hchainSorted : List.Chain' strictOrdK ((sortSectors infos).map keyOf) :=
    (List.chain'_map keyOf).mpr hpwStrict.chain'
  rw [← hmapK] at hchainSorted
  exact (List.chain'_map keyOf).mp hchainSorted

theorem C3_witness : strictSorted [siDup] :=
  C3_sorted_strict_of_nodup envAllOk minerArg [5]
    { Miner := 0, SectorSize := 32, SectorInfos := [siDup] } [] (by decide) rfl

/-- C8: the pipeline is deterministic in its external inputs: two runs with
the same miner string and sector list, against environments whose every
query answers identically, produce the same result record and failure
list (the serialized output is a function of that record). -/
theorem C8_deterministic (e1 e2 : Env) (m : String) (ss : List Nat)
    (h1 : ∀ s, e1.newFromString s = e2.newFromString s)
    (h2 : e1.getFullNodeAPI = e2.getFullNodeAPI)
    (h3 : ∀ a, e1.stateMinerInfo a = e2.stateMinerInfo a)
    (h4 : ∀ a s, e1.stateSectorGetInfo a s = e2.stateSectorGetInfo a s)
    (h5 : ∀ a s, e1.stateSectorPreCommitInfo a s = e2.stateSectorPreCommitInfo a s)
    (h6 : ∀ ep k, e1.chainGetTipSetByHeight ep k = e2.chainGetTipSetByHeight ep k)
    (h7 : ∀ ep b k, e1.stateGetRandomnessFromTickets ep b k = e2.stateGetRandomnessFromTickets ep b k)
    (h8 : ∀ a, e1.marshalCBOR a = e2.marshalCBOR a)
    (h9 : e1.writeFileOk = e2.writeFileOk) :
    ExportAction e1 m ss = ExportAction e2 m ss := by
  obtain ⟨p1, c1, m1, g1, pc1, t1, r1, mc1, w1⟩ := e1
  obtain ⟨p2, c2, m2, g2, pc2, t2, r2, mc2, w2⟩ := e2
  have e1 : p1 = p2 := funext h1
  have e3 : m1 = m2 := funext h3
  have e4 : g1 = g2 := funext fun a => funext fun s => h4 a s
  have e5 : pc1 = pc2 := funext fun a => funext fun s => h5 a s
  have e6 : t1 = t2 := funext fun ep => funext fun k => h6 ep k
  have e7 : r1 = r2 := funext fun ep => funext fun b => funext fun k => h7 ep b k
  have e8 : mc1 = mc2 := funext h8
  subst e1 e3 e4 e5 e6 e7 e8
  subst h2 h9
  rfl

theorem C8_witness : ExportAction envAllOk minerArg [5] = ExportAction envAllOk minerArg [5] :=
  C8_deterministic envAllOk envAllOk minerArg [5]
    (fun _ => rfl) rfl (fun _ => rfl) (fun _ _ => rfl) (fun _ _ => rfl)
    (fun _ _ => rfl) (fun _ _ _ => rfl) (fun _ => rfl) rfl

/-- C9: the claim says the exit status is non-zero exactly on identity or
initial size-query failure and zero otherwise.  At an environment where
identity resolution and the size query succeed but the output-file write
fails, the run still returns an error. -/
theorem C9_write_failure_counterexample :
    (envWriteFail.newFromString minerArg).isSome = true ∧
    (envWriteFail.stateMinerInfo 0).isSome = true ∧
    ExportAction envWriteFail minerArg [1] = Except.error RunError.writeFileFailed :=
  ⟨rfl, rfl, rfl⟩

/-- C9 (amended): the run errors on identity-resolution failure, API
connection failure, size-query failure, a classification or tipset-walk
fault (propagated nil-dereference panic), or a failed output write; when
identity, connection and size query succeed, classification and the walk
return (with arbitrary per-sector failure sets), and the write succeeds,
the run exits successfully — so isolated per-sector classification and
randomness-derivation failures never change the exit status. -/
theorem C9_exit_status (env : Env) (m : String) (ss : List Nat) :
    (env.newFromString m = none → ExportAction env m ss = Except.error RunError.invalidIdentity) ∧
    (∀ a, env.newFromString m = some a → env.getFullNodeAPI = false →
      ExportAction env m ss = Except.error RunError.apiConnectFailed) ∧
    (∀ a, env.newFromString m = some a → env.getFullNodeAPI = true →
      env.stateMinerInfo a = none →
      ExportAction env m ss = Except.error RunError.minerInfoFailed) ∧
    (∀ a sz e, env.newFromString m = some a → env.getFullNodeAPI = true →
      env.stateMinerInfo a = some sz → classifySectors env a ss = Except.error e →
      ExportAction env m ss = Except.error e) ∧
    (∀ a sz infos fc e, env.newFromString m = some a → env.getFullNodeAPI = true →
      env.stateMinerInfo a = some sz → classifySectors env a ss = Except.ok (infos, fc) →
      resolveRandomness env (env.marshalCBOR a) emptyTSK (sortSectors infos) = Except.error e →
      ExportAction env m ss = Except.error e) ∧
    (∀ a sz infos fc l fr, env.newFromString m = some a → env.getFullNodeAPI = true →
      env.stateMinerInfo a = some sz → classifySectors env a ss = Except.ok (infos, fc) →
      resolveRandomness env (env.marshalCBOR a) emptyTSK (sortSectors infos) = Except.ok (l, fr) →
      (env.writeFileOk = true →
        ExportAction env m ss = Except.ok ({ Miner := a, SectorSize := sz, SectorInfos := l }, fc ++ fr)) ∧
      (env.writeFileOk = false → ExportAction env m ss = Except.error RunError.writeFileFailed)) := by
  refine ⟨?_, ?_, ?_, ?_, ?_, ?_⟩
  · intro hp
    simp [ExportAction, hp]
  · intro a hp hc
    simp [ExportAction, hp, hc]
  · intro a hp hc hm
    simp [ExportAction, hp, hc, hm]
  · intro a sz e hp hc hm hcl
    simp [ExportAction, hp, hc, hm, hcl]
  · intro a sz infos fc e hp hc hm hcl hre
    simp [ExportAction, hp, hc, hm, hcl, hre]
  · intro a sz infos fc l fr hp hc hm hcl hre
    constructor
    · intro hw
      simp [ExportAction, hp, hc, hm, hcl, hre, hw]
    · intro hw
      simp [ExportAction, hp, hc, hm, hcl, hre, hw]

theorem C9_witness :
    ExportAction envAllOk minerArg [] =
      Except.ok ({ Miner := 0, SectorSize := 32, SectorInfos := [] }, []) :=
  (((C9_exit_status envAllOk minerArg []).2.2.2.2.2) 0 32 [] [] [] [] rfl rfl rfl rfl rfl).1 rfl
